import Mathlib

/-!
Verification of the registry-and-dispatch subsystem of MedCalc-Web.

Shallow embedding of `src/app/registry.py`, `src/app/services/post_processors.py`
and `src/app/services/calculator_runner.py`.  Python dictionaries are modelled
as ordered association lists (insertion order preserved, keys unique in
practice), Python numbers as rationals, and dynamically typed Python values as
the inductive type `PyVal`.
-/

namespace MedCalc

/-- Model of a dynamically typed Python value as it flows through the
registry/dispatch layer.  Floats and ints are both modelled as exact
rationals (`num` keeps the integer/float distinction where the code cares,
via `int`). -/
inductive PyVal where
  | none : PyVal
  | bool : Bool → PyVal
  | int : Int → PyVal
  | num : ℚ → PyVal
  | str : String → PyVal
  | list : List PyVal → PyVal
  | dict : List (String × PyVal) → PyVal

/-- A Python `dict` with string keys: an insertion-ordered association list. -/
abbrev Dict := List (String × PyVal)

/-- `d[key]` lookup returning the first (in a real Python dict: the only)
binding of `key`. -/
def dictGet {β : Type} : List (String × β) → String → Option β
  | [], _ => Option.none
  | (k, v) :: rest, key => if k = key then some v else dictGet rest key

/-- `key in d`. -/
def dictContains {β : Type} (d : List (String × β)) (key : String) : Bool :=
  (dictGet d key).isSome

/-- `d[key] = val`: replace the binding in place if present, else append —
exactly the observable behaviour of assignment into a Python dict. -/
def dictSet {β : Type} : List (String × β) → String → β → List (String × β)
  | [], key, val => [(key, val)]
  | (k, v) :: rest, key, val =>
    if k = key then (k, val) :: rest else (k, v) :: dictSet rest key val

/-- `base.update(extra)`: successive assignment of every binding of `extra`
into `base`, later bindings overriding earlier same-named ones. -/
def dictUpdate {β : Type} (base extra : List (String × β)) : List (String × β) :=
  extra.foldl (fun acc kv => dictSet acc kv.1 kv.2) base

/-- ASCII lower-casing of a string (`str.lower()`; the metadata handled by the
registry is ASCII). -/
def strLower (s : String) : String :=
  String.mk (s.data.map Char.toLower)

/-- `c in s` for a single-character needle, which is how the code uses the
Python substring test (`"c" in unit`). -/
def strContainsChar (s : String) (c : Char) : Bool :=
  s.data.contains c

/-- Digits of a decimal literal to a natural number. -/
def digitsToNat (cs : List Char) : Nat :=
  cs.foldl (fun n c => n * 10 + (c.toNat - 48)) 0

/-- Unsigned part of `float(str)`: digits with an optional single decimal
point (exponent forms and `inf`/`nan` are not modelled; no metadata or claim
feeds them). -/
def parseFloatCore (cs : List Char) : Option ℚ :=
  let intPart := cs.takeWhile Char.isDigit
  let rest := cs.dropWhile Char.isDigit
  match rest with
  | [] => if intPart.isEmpty then Option.none else some (digitsToNat intPart : ℚ)
  | c :: rest2 =>
    if c = '.' then
      let fracPart := rest2.takeWhile Char.isDigit
      let rest3 := rest2.dropWhile Char.isDigit
      if rest3.isEmpty && !(intPart.isEmpty && fracPart.isEmpty) then
        some ((digitsToNat (intPart ++ fracPart) : ℚ) / ((10 : ℚ) ^ fracPart.length))
      else Option.none
    else Option.none

/-- `float(str)`: strip surrounding whitespace, optional sign, decimal body. -/
def parseFloat (s : String) : Option ℚ :=
  let cs := ((s.data.dropWhile Char.isWhitespace).reverse.dropWhile Char.isWhitespace).reverse
  match cs with
  | [] => Option.none
  | c :: rest =>
    if c = '-' then (parseFloatCore rest).map Neg.neg
    else if c = '+' then parseFloatCore rest
    else parseFloatCore cs

/-- `float(x)` on a Python value: numbers pass through, booleans coerce to
0/1, numeric strings parse, everything else raises (modelled as `none`). -/
def pyFloat : PyVal → Option ℚ
  | PyVal.int n => some (n : ℚ)
  | PyVal.num q => some q
  | PyVal.bool b => some (if b then 1 else 0)
  | PyVal.str s => parseFloat s
  | _ => Option.none

/-- Python truthiness (`bool(x)`). -/
def pyTruthy : PyVal → Bool
  | PyVal.none => false
  | PyVal.bool b => b
  | PyVal.int n => n != 0
  | PyVal.num q => q != 0
  | PyVal.str s => !s.isEmpty
  | PyVal.list l => !l.isEmpty
  | PyVal.dict d => !d.isEmpty

/-- `str(x)` as used on unit tokens.  Faithful for the string/None/bool cases
that occur; container reprs are abbreviated to `""` (no claim inspects the
repr of a container used as a unit token). -/
def pyStr : PyVal → String
  | PyVal.str s => s
  | PyVal.none => "None"
  | PyVal.bool b => if b then "True" else "False"
  | PyVal.int n => toString n
  | PyVal.num q => toString q
  | PyVal.list _ => ""
  | PyVal.dict _ => ""

/-- Python 3 `round` to an integer: round half to even (banker's rounding). -/
def pyRound (q : ℚ) : Int :=
  if q - (⌊q⌋ : ℚ) < 1 / 2 then ⌊q⌋
  else if 1 / 2 < q - (⌊q⌋ : ℚ) then ⌊q⌋ + 1
  else if ⌊q⌋ % 2 = 0 then ⌊q⌋ else ⌊q⌋ + 1

/-- `d.get(key)` on a Python dict: the stored value, or `None` when absent. -/
def pyDictGet (d : Dict) (key : String) : PyVal :=
  (dictGet d key).getD PyVal.none

/-! ## `src/app/registry.py` -/

/-- `META_KEYS` (registry.py line 12): entry keys that are metadata rather
than field-map labels, matched case-insensitively. -/
def META_KEYS : List String :=
  ["file path", "explanation function", "calculator name", "type", "question"]

/-- True exactly on the characters kept by the slug regex `[^a-z0-9]`
complement, applied to the lower-cased name. -/
def isSlugChar (c : Char) : Bool :=
  ('a' ≤ c && c ≤ 'z') || ('0' ≤ c && c ≤ '9')

/-- `re.sub(r"[^a-z0-9]+", "-", s)`: every maximal run of non-alphanumeric
characters becomes a single hyphen.  The boolean records whether the
previous character belonged to such a run (so the run emits one hyphen). -/
def collapseNonAlnumAux : Bool → List Char → List Char
  | _, [] => []
  | inRun, c :: rest =>
    if isSlugChar c then c :: collapseNonAlnumAux false rest
    else if inRun then collapseNonAlnumAux true rest
    else '-' :: collapseNonAlnumAux true rest

def collapseNonAlnum (cs : List Char) : List Char :=
  collapseNonAlnumAux false cs

/-- `re.sub(r"-{2,}", "-", s)`: collapse hyphen runs (a no-op after
`collapseNonAlnum`, kept for faithfulness to the source). -/
def collapseHyphensAux : Bool → List Char → List Char
  | _, [] => []
  | prevHyphen, c :: rest =>
    if c = '-' then
      if prevHyphen then collapseHyphensAux true rest
      else '-' :: collapseHyphensAux true rest
    else c :: collapseHyphensAux false rest

def collapseHyphens (cs : List Char) : List Char :=
  collapseHyphensAux false cs

/-- `_slugify` (registry.py lines 21-24): lower-case, hyphenate runs of
non-alphanumerics, strip leading/trailing hyphens, fall back to
`"calculator"` when empty. -/
def _slugify (value : String) : String :=
  let lowered := value.data.map Char.toLower
  let collapsed := collapseHyphens (collapseNonAlnum lowered)
  let stripped :=
    ((collapsed.dropWhile (fun c => c = '-')).reverse.dropWhile (fun c => c = '-')).reverse
  if stripped.isEmpty then "calculator" else String.mk stripped

/-- `CalculatorDefinition` (registry.py lines 27-36). -/
structure CalculatorDefinition where
  id : String
  name : String
  slug : String
  module_path : String
  function_name : String
  calculator_type : Option String := Option.none
  question : Option String := Option.none
  field_map : List (String × String) := []

/-- First pass of `translate_inputs` (registry.py lines 46-48): for every
`(label, python_name)` field-map pair whose label occurs in the raw inputs,
assign `translated[python_name] = raw_inputs[label]`. -/
def labelPass (raw_inputs : Dict) : List (String × String) → Dict → Dict
  | [], translated => translated
  | lp :: rest, translated =>
    if dictContains raw_inputs lp.1 then
      labelPass raw_inputs rest
        (dictSet translated lp.2 ((dictGet raw_inputs lp.1).getD PyVal.none))
    else labelPass raw_inputs rest translated

/-- Second pass of `translate_inputs` (registry.py lines 50-52): copy through
every raw key that is neither a field-map label nor an already-produced
output key. -/
def passthroughPass (field_map : List (String × String)) : Dict → Dict → Dict
  | [], translated => translated
  | kv :: rest, translated =>
    if !(dictContains field_map kv.1) && !(dictContains translated kv.1) then
      passthroughPass field_map rest (dictSet translated kv.1 kv.2)
    else passthroughPass field_map rest translated

/-- `CalculatorDefinition.translate_inputs` (registry.py lines 44-54). -/
def CalculatorDefinition.translate_inputs
    (defn : CalculatorDefinition) (raw_inputs : Dict) : Dict :=
  passthroughPass defn.field_map raw_inputs (labelPass raw_inputs defn.field_map [])

/-- `CalculatorRegistry` (registry.py lines 57-62): the definition list plus
the two derived indices built by dict comprehension (later duplicates
overwrite). -/
structure CalculatorRegistry where
  calculators : List CalculatorDefinition
  by_slug : List (String × CalculatorDefinition)
  by_id : List (String × CalculatorDefinition)

/-- `CalculatorRegistry.__init__`. -/
def CalculatorRegistry.ofList (cs : List CalculatorDefinition) : CalculatorRegistry :=
  { calculators := cs,
    by_slug := cs.foldl (fun acc c => dictSet acc c.slug c) [],
    by_id := cs.foldl (fun acc c => dictSet acc c.id c) [] }

/-- `CalculatorRegistry.list` (registry.py lines 64-65). -/
def CalculatorRegistry.list (r : CalculatorRegistry) : List CalculatorDefinition :=
  r.calculators

/-- One value of the path index (`calc_path.json`): per spec §6 each entry
carries at least a "Calculator ID" (already stringified here, as the code
applies `str(...)`) and a "File Path". Entries without a "Calculator ID" are
ignored by the builder, hence the `Option`. -/
structure CalcPathEntry where
  calculator_id : Option String
  file_path : String

/-- `path_by_id` (registry.py lines 83-90): dict comprehension keyed by the
stringified "Calculator ID", valued by (calculator name, file path). -/
def buildPathById (calc_path : List (String × CalcPathEntry)) :
    List (String × (String × String)) :=
  calc_path.foldl
    (fun acc kv =>
      match kv.2.calculator_id with
      | some cid => dictSet acc cid (kv.1, kv.2.file_path)
      | Option.none => acc)
    []

/-- A field-mapping index entry: JSON object whose string keys map to string
values (metadata labels or field-map parameter names, per spec §6). -/
abbrev NameMapEntry := List (String × String)

/-- `metadata.get(key)` (registry.py lines 97-99): the metadata dict is built
with lower-cased keys, later duplicates overwriting, so a lookup returns the
value of the last entry whose lower-cased key matches. -/
def metaGet (entry : NameMapEntry) (key : String) : Option String :=
  ((entry.filter (fun kv => strLower kv.1 == key)).getLast?).map (fun kv => kv.2)

/-- `field_map` extraction (registry.py lines 100-102): every entry whose
lower-cased key is not a metadata key. -/
def entryFieldMap (entry : NameMapEntry) : List (String × String) :=
  entry.filter (fun kv => !(META_KEYS.contains (strLower kv.1)))

/-- Python `a or b` on optional strings: `a` when truthy (present and
non-empty), otherwise `b`. -/
def pyOrStr (a b : Option String) : Option String :=
  match a with
  | some s => if s.isEmpty then b else some s
  | Option.none => b

/-- Python truthiness of an optional string (`not x` is true exactly when
`x` is `None` or `""`). -/
def truthyStr : Option String → Bool
  | some s => !s.isEmpty
  | Option.none => false

/-- `module_rel_path` resolution (registry.py lines 104-107): the path
index's file path, falling back to the "file path" metadata value. -/
def resolveModuleRelPath (pathById : List (String × (String × String)))
    (calculator_id : String) (entry : NameMapEntry) : Option String :=
  pyOrStr ((dictGet pathById calculator_id).map (fun nv => nv.2))
    (metaGet entry "file path")

/-- `calculator_name` resolution (registry.py lines 109-111): the
"calculator name" metadata value, falling back to the path index's name. -/
def resolveCalculatorName (pathById : List (String × (String × String)))
    (calculator_id : String) (entry : NameMapEntry) : Option String :=
  pyOrStr (metaGet entry "calculator name")
    ((dictGet pathById calculator_id).map (fun nv => nv.1))

/-- The builder's keep/skip decision (registry.py lines 104-114): the
resolved module path, function name and calculator name, or `none` when any
of the three is missing or empty (`continue`). -/
def acceptedFields (pathById : List (String × (String × String)))
    (calculator_id : String) (entry : NameMapEntry) :
    Option (String × String × String) :=
  match resolveModuleRelPath pathById calculator_id entry,
        metaGet entry "explanation function",
        resolveCalculatorName pathById calculator_id entry with
  | some mrp, some fn, some cn =>
    if mrp.isEmpty || fn.isEmpty || cn.isEmpty then Option.none
    else some (mrp, fn, cn)
  | _, _, _ => Option.none

/-- Strip the extension from the final component's name: drop from the last
dot, provided that dot is not the leading character of the name
(`Path(...).with_suffix("")` on the relative posix paths the metadata
holds). -/
def dropFromLastDot (name : List Char) : List Char :=
  match name with
  | [] => []
  | c0 :: rest =>
    if rest.contains '.' then
      c0 :: (((rest.reverse.dropWhile (fun c => c ≠ '.')).drop 1).reverse)
    else name

/-- `module_path` derivation (registry.py lines 116-118):
`Path(p).with_suffix("").as_posix().replace("/", ".")` for an
already-normalized relative posix path. -/
def modulePathOf (rel : String) : String :=
  let cs := rel.data
  let revName := cs.reverse.takeWhile (fun c => c ≠ '/')
  let dir := (cs.reverse.dropWhile (fun c => c ≠ '/')).reverse
  let stem := dropFromLastDot revName.reverse
  String.mk ((dir ++ stem).map (fun c => if c = '/' then '.' else c))

/-- One iteration of the builder loop (registry.py lines 95-136) on a kept
entry: derive the slug (counting occurrences of the candidate slug across
the whole build, suffixing `-N` from the second occurrence on) and build the
definition; `none` models `continue`. -/
def processEntry (pathById : List (String × (String × String)))
    (slug_counts : List (String × Nat)) (calculator_id : String)
    (entry : NameMapEntry) :
    Option (CalculatorDefinition × List (String × Nat)) :=
  match acceptedFields pathById calculator_id entry with
  | Option.none => Option.none
  | some (mrp, fn, cn) =>
    let base := _slugify cn
    let n := (dictGet slug_counts base).getD 0 + 1
    let counts2 := dictSet slug_counts base n
    let slug := if n > 1 then base ++ "-" ++ toString n else base
    some
      ({ id := calculator_id, name := cn, slug := slug,
         module_path := modulePathOf mrp, function_name := fn,
         calculator_type := metaGet entry "type",
         question := metaGet entry "question",
         field_map := entryFieldMap entry },
       counts2)

/-- The builder loop over the field-mapping index, threading the slug
counter. -/
def buildLoop (pathById : List (String × (String × String))) :
    List (String × NameMapEntry) → List (String × Nat) → List CalculatorDefinition
  | [], _ => []
  | (cid, entry) :: rest, counts =>
    match processEntry pathById counts cid entry with
    | Option.none => buildLoop pathById rest counts
    | some (defn, counts2) => defn :: buildLoop pathById rest counts2

/-- `_build_definitions` (registry.py lines 79-138), parameterized by the
two parsed metadata documents. -/
def buildDefinitions (calc_path : List (String × CalcPathEntry))
    (name_map : List (String × NameMapEntry)) : List CalculatorDefinition :=
  buildLoop (buildPathById calc_path) name_map []

/-- `get_registry` (registry.py lines 141-143), parameterized by the parsed
metadata (the `lru_cache` memoization is observationally the identity). -/
def get_registry (calc_path : List (String × CalcPathEntry))
    (name_map : List (String × NameMapEntry)) : CalculatorRegistry :=
  CalculatorRegistry.ofList (buildDefinitions calc_path name_map)

/-- The candidate (pre-suffix) slugs of the entries the builder keeps, in
iteration order. -/
def keptBases (pathById : List (String × (String × String))) :
    List (String × NameMapEntry) → List String
  | [] => []
  | (cid, entry) :: rest =>
    match acceptedFields pathById cid entry with
    | Option.none => keptBases pathById rest
    | some (_, _, cn) => _slugify cn :: keptBases pathById rest

/-- The slug-assignment fold of the builder in isolation (registry.py lines
120-123): given the running per-slug counters and the candidate slugs in
order, produce the assigned slugs. -/
def assignSlugs : List (String × Nat) → List String → List String
  | _, [] => []
  | counts, base :: rest =>
    let n := (dictGet counts base).getD 0 + 1
    let slug := if n > 1 then base ++ "-" ++ toString n else base
    slug :: assignSlugs (dictSet counts base n) rest

/-- Occurrence count of a string in a list. -/
def countOcc (l : List String) (b : String) : Nat :=
  (l.filter (fun x => x == b)).length

/-! ## `src/app/services/post_processors.py` -/

/-- `_extract_value` (post_processors.py lines 10-19): the first element of a
non-empty list/tuple, else the field itself, coerced with `float(...)`;
`None` on failure. -/
def _extract_value (field : PyVal) : Option ℚ :=
  match field with
  | PyVal.list (x :: _) => pyFloat x
  | f => pyFloat f

/-- `_extract_unit` (post_processors.py lines 22-25): `str(field[1]).lower()`
of a length-≥2 list/tuple, else `""`. -/
def _extract_unit (field : PyVal) : String :=
  match field with
  | PyVal.list (_ :: u :: _) => strLower (pyStr u)
  | _ => ""

/-- `_as_bool` (post_processors.py lines 28-33): booleans pass through,
strings compare case-insensitively against `{"true", "1", "yes"}`, anything
else takes Python truthiness. -/
def _as_bool (value : PyVal) : Bool :=
  match value with
  | PyVal.bool b => b
  | PyVal.str s => ["true", "1", "yes"].contains (strLower s)
  | v => pyTruthy v

/-- `_convert_temperature_to_celsius` (post_processors.py lines 36-45):
pass-through when the lower-cased unit token contains `"c"` or when there is
no unit token; Fahrenheit→Celsius when it contains `"f"` (and no `"c"`). -/
def _convert_temperature_to_celsius (field : PyVal) : Option ℚ :=
  match _extract_value field with
  | Option.none => Option.none
  | some value =>
    let unit := _extract_unit field
    if strContainsChar unit 'c' then some value
    else if strContainsChar unit 'f' then some ((value - 32) * (5 / 9))
    else some value

/-- `_derive_psi_risk_class` (post_processors.py lines 48-80), returning the
(risk_class, recommendation) pair of the dict the source builds. -/
def _derive_psi_risk_class (score : Option Int) (is_class_i : Bool) :
    String × String :=
  if is_class_i then
    ("Risk Class I", "Very low risk. Outpatient care appropriate.")
  else
    match score with
    | Option.none => ("Unknown", "Score unavailable. Please verify the inputs.")
    | some s =>
      if s ≤ 70 then ("Risk Class II", "Low risk. Outpatient care appropriate.")
      else if s ≤ 90 then
        ("Risk Class III", "Low risk. Consider outpatient management or brief observation.")
      else if s ≤ 130 then
        ("Risk Class IV", "Moderate risk. Recommend inpatient admission.")
      else ("Risk Class V", "High risk. Recommend inpatient admission (consider ICU).")

/-- Modelled from the spec: `calculator_implementations/age_conversion.py`
(imported by post_processors.py line 5) is not under `src/`.  Spec §4.6 says
ancillary physiologic inputs such as age arrive either as a bare numeric
value or as a two-element value+unit pair and are extracted/converted to the
expected scale (years for age); exceptions are caught by the caller, modelled
as `none`.  Modelled as extracting the numeric value, taken to be in years. -/
def age_conversion (v : PyVal) : Option ℚ :=
  _extract_value v

/-- An integer-or-`None` Python value. -/
def optIntToPy : Option Int → PyVal
  | some n => PyVal.int n
  | Option.none => PyVal.none

/-- `_psi_processor` (post_processors.py lines 83-135). -/
def _psi_processor (inputs : Dict) (raw_result : Dict) : Dict :=
  let score_value : Option Int := (pyFloat (pyDictGet raw_result "Answer")).map pyRound
  let age_years : Option ℚ :=
    if dictContains inputs "age" then age_conversion (pyDictGet inputs "age")
    else Option.none
  let heart_rate := _extract_value (pyDictGet inputs "heart_rate")
  let respiratory_rate := _extract_value (pyDictGet inputs "respiratory_rate")
  let systolic_bp := _extract_value (pyDictGet inputs "sys_bp")
  let temp_celsius := _convert_temperature_to_celsius (pyDictGet inputs "temperature")
  let comorbidities : List PyVal :=
    [pyDictGet inputs "neoplastic_disease",
     pyDictGet inputs "liver_disease",
     pyDictGet inputs "chf",
     pyDictGet inputs "cerebrovascular_disease",
     pyDictGet inputs "renal_disease"]
  let exam_findings : List Bool :=
    [pyTruthy (pyDictGet inputs "altered_mental_status"),
     match respiratory_rate with | some r => decide (r ≥ 30) | Option.none => false,
     match systolic_bp with | some s => decide (s < 90) | Option.none => false,
     match temp_celsius with
       | some t => decide (t < 35 ∨ t ≥ 40)
       | Option.none => false,
     match heart_rate with | some h => decide (h ≥ 125) | Option.none => false]
  let is_class_i : Bool :=
    (match age_years with | some a => decide (a ≤ 50) | Option.none => false)
    && !(_as_bool (pyDictGet inputs "nursing_home_resident"))
    && !(comorbidities.any _as_bool)
    && !(exam_findings.any id)
  let classification := _derive_psi_risk_class score_value is_class_i
  [("score", if is_class_i then PyVal.none else optIntToPy score_value),
   ("raw_score", optIntToPy score_value),
   ("risk_class", PyVal.str classification.1),
   ("recommendation", PyVal.str classification.2),
   ("is_class_i", PyVal.bool is_class_i)]

/-- A post-processor registration table (`POST_PROCESSORS`): `slug` → pure
function from (translated inputs, raw result) to supplementary fields. -/
def PostTable : Type :=
  String → Option (Dict → Dict → Dict)

/-- The actual registration table (post_processors.py lines 7, 138-140): the
single PSI entry. -/
def POST_PROCESSORS : PostTable := fun slug =>
  if slug = "psi-score-pneumonia-severity-index-for-cap" then some _psi_processor
  else Option.none

/-- `apply_post_processors` (post_processors.py lines 143-149), parameterized
by the registration table it reads. -/
def apply_post_processors (table : PostTable) (calculator : CalculatorDefinition)
    (inputs raw_result : Dict) : Option Dict :=
  match table calculator.slug with
  | Option.none => Option.none
  | some processor => some (processor inputs raw_result)

/-! ## `src/app/services/calculator_runner.py` -/

/-- The base normalized response (calculator_runner.py lines 36-43). -/
def base_response (calculator : CalculatorDefinition) (d : Dict) : Dict :=
  [("calculator_id", PyVal.str calculator.id),
   ("calculator_slug", PyVal.str calculator.slug),
   ("calculator_name", PyVal.str calculator.name),
   ("answer", pyDictGet d "Answer"),
   ("explanation", pyDictGet d "Explanation"),
   ("raw_response", PyVal.dict d)]

/-- `execute_calculator` (calculator_runner.py lines 23-49), parameterized by
the post-processor table and by the resolved callable (the `importlib`
resolution of `_get_callable` is environment dependent and passed in as the
function it resolves to).  A non-mapping result raises `ValueError`, modelled
as `Except.error` with the source's message. -/
def execute_calculator (table : PostTable) (call : Dict → PyVal)
    (calculator : CalculatorDefinition) (payload : Dict) : Except String Dict :=
  let python_payload := calculator.translate_inputs payload
  match call python_payload with
  | PyVal.dict d =>
    Except.ok (dictUpdate (base_response calculator d)
      ((apply_post_processors table calculator python_payload d).getD []))
  | _ =>
    Except.error ("Calculator '" ++ calculator.slug ++ "' returned an unexpected result. "
      ++ "Expected a dictionary containing 'Answer' and 'Explanation'.")

/-! ## Concrete metadata fixtures used by individual claims -/

/-- Fixture (slug-collision counterexample): three complete entries whose
names slugify to "a", "a" and "a 2". -/
def nmColl : List (String × NameMapEntry) :=
  [("1", [("File Path", "m.py"), ("Explanation Function", "f"), ("Calculator Name", "a")]),
   ("2", [("File Path", "m.py"), ("Explanation Function", "f"), ("Calculator Name", "a")]),
   ("3", [("File Path", "m.py"), ("Explanation Function", "f"), ("Calculator Name", "a 2")])]

/-- Fixture: two complete entries with distinct names. -/
def nmUniq : List (String × NameMapEntry) :=
  [("1", [("File Path", "m.py"), ("Explanation Function", "f"), ("Calculator Name", "Alpha")]),
   ("2", [("File Path", "m.py"), ("Explanation Function", "g"), ("Calculator Name", "Beta")])]

/-- Fixture (QTc slug-collision example): both names normalize to
"qtc-bazett-calculator". -/
def nmQtc : List (String × NameMapEntry) :=
  [("1", [("File Path", "a/b.py"), ("Explanation Function", "f"),
          ("Calculator Name", "QTc Bazett Calculator")]),
   ("2", [("File Path", "a/c.py"), ("Explanation Function", "g"),
          ("Calculator Name", "qtc? BAZETT; calculator")])]

/-- Fixture: entry "7" lacks its "Explanation Function". -/
def nmIncomplete : List (String × NameMapEntry) :=
  [("7", [("File Path", "m.py"), ("Calculator Name", "X")]),
   ("8", [("File Path", "m.py"), ("Explanation Function", "f"), ("Calculator Name", "Y")])]

/-- Fixture (PSI fast-path scenario inputs from the spec's test vector). -/
def psiInputs45 : Dict :=
  [("age", PyVal.num 45), ("nursing_home_resident", PyVal.bool false),
   ("neoplastic_disease", PyVal.bool false), ("liver_disease", PyVal.bool false),
   ("chf", PyVal.bool false), ("cerebrovascular_disease", PyVal.bool false),
   ("renal_disease", PyVal.bool false), ("respiratory_rate", PyVal.num 18),
   ("sys_bp", PyVal.num 120), ("heart_rate", PyVal.num 80),
   ("temperature", PyVal.list [PyVal.num 37, PyVal.str "C"]),
   ("altered_mental_status", PyVal.bool false)]

/-! ## Association-list lemmas shared by the proofs -/

theorem dictGet_set_self {β : Type} (d : List (String × β)) (k : String) (v : β) :
    dictGet (dictSet d k v) k = some v := by
  induction d with
  | nil => simp [dictSet, dictGet]
  | cons kv rest ih =>
    obtain ⟨k1, v1⟩ := kv
    by_cases h : k1 = k
    · simp [dictSet, dictGet, h]
    · simp [dictSet, dictGet, h, ih]

theorem dictGet_set_ne {β : Type} (d : List (String × β)) (k' k : String) (v : β)
    (h : k' ≠ k) : dictGet (dictSet d k' v) k = dictGet d k := by
  induction d with
  | nil => simp [dictSet, dictGet, h]
  | cons kv rest ih =>
    obtain ⟨k1, v1⟩ := kv
    by_cases h1 : k1 = k'
    · subst h1
      simp [dictSet, dictGet, h]
    · by_cases h2 : k1 = k
      · subst h2
        simp [dictSet, dictGet, h1]
      · simp [dictSet, dictGet, h1, h2, ih]

theorem dictGet_eq_none_of_not_mem {β : Type} (d : List (String × β)) (k : String)
    (h : k ∉ d.map Prod.fst) : dictGet d k = Option.none := by
  induction d with
  | nil => rfl
  | cons kv rest ih =>
    simp only [List.map_cons, List.mem_cons, not_or] at h
    obtain ⟨k1, v1⟩ := kv
    have h1 : k1 ≠ k := fun hk => h.1 hk.symm
    simp [dictGet, h1, ih h.2]

theorem dictContains_set {β : Type} (d : List (String × β)) (k' k : String) (v : β)
    (h : dictContains d k = true) : dictContains (dictSet d k' v) k = true := by
  by_cases hk : k' = k
  · subst hk
    simp [dictContains, dictGet_set_self]
  · rw [dictContains, dictGet_set_ne d k' k v hk]
    exact h

theorem dictGet_update {β : Type} (base extra : List (String × β)) (k : String)
    (hnd : (extra.map Prod.fst).Nodup) :
    dictGet (dictUpdate base extra) k
      = (dictGet extra k).elim (dictGet base k) some := by
  induction extra generalizing base with
  | nil => simp [dictUpdate, dictGet]
  | cons kv rest ih =>
    obtain ⟨k1, v1⟩ := kv
    simp only [List.map_cons, List.nodup_cons] at hnd
    have hstep : dictUpdate base ((k1, v1) :: rest) = dictUpdate (dictSet base k1 v1) rest := rfl
    rw [hstep, ih (dictSet base k1 v1) hnd.2]
    by_cases h : k1 = k
    · subst h
      have hrest : dictGet rest k1 = Option.none :=
        dictGet_eq_none_of_not_mem rest k1 hnd.1
      simp [dictGet, hrest, dictGet_set_self]
    · simp [dictGet, h, dictGet_set_ne base k1 k v1 h]

/-! ## Field-translator lemmas -/

theorem passthroughPass_get_of_not_mem (fm : List (String × String)) (raw acc : Dict)
    (k : String) (h : k ∉ raw.map Prod.fst) :
    dictGet (passthroughPass fm raw acc) k = dictGet acc k := by
  induction raw generalizing acc with
  | nil => rfl
  | cons kv rest ih =>
    obtain ⟨k1, v1⟩ := kv
    simp only [List.map_cons, List.mem_cons, not_or] at h
    have h1 : k1 ≠ k := fun e => h.1 e.symm
    simp only [passthroughPass]
    by_cases hc : (!(dictContains fm k1) && !(dictContains acc k1)) = true
    · rw [if_pos hc, ih _ h.2, dictGet_set_ne acc k1 k v1 h1]
    · rw [if_neg hc, ih _ h.2]

theorem passthroughPass_get (fm : List (String × String)) (raw acc : Dict) (k : String)
    (hnd : (raw.map Prod.fst).Nodup)
    (hfm : dictContains fm k = false) (hacc : dictContains acc k = false) :
    dictGet (passthroughPass fm raw acc) k = dictGet raw k := by
  induction raw generalizing acc with
  | nil =>
    have h0 : dictGet acc k = Option.none := by
      cases hg : dictGet acc k with
      | none => rfl
      | some v => rw [dictContains, hg] at hacc; simp at hacc
    simp [passthroughPass, dictGet, h0]
  | cons kv rest ih =>
    obtain ⟨k1, v1⟩ := kv
    simp only [List.map_cons, List.nodup_cons] at hnd
    by_cases hk : k1 = k
    · subst hk
      simp only [passthroughPass]
      rw [if_pos (by simp [hfm, hacc])]
      rw [passthroughPass_get_of_not_mem fm rest _ k1 hnd.1, dictGet_set_self]
      simp [dictGet]
    · simp only [passthroughPass]
      have hrhs : dictGet ((k1, v1) :: rest) k = dictGet rest k := by
        simp [dictGet, hk]
      by_cases hc : (!(dictContains fm k1) && !(dictContains acc k1)) = true
      · rw [if_pos hc, hrhs]
        refine ih _ hnd.2 ?_
        rw [dictContains, dictGet_set_ne acc k1 k v1 hk]
        exact hacc
      · rw [if_neg hc, hrhs]
        exact ih _ hnd.2 hacc

theorem passthroughPass_contains (fm : List (String × String)) (raw acc : Dict)
    (k : String) (h : dictContains acc k = true) :
    dictContains (passthroughPass fm raw acc) k = true := by
  induction raw generalizing acc with
  | nil => exact h
  | cons kv rest ih =>
    obtain ⟨k1, v1⟩ := kv
    simp only [passthroughPass]
    by_cases hc : (!(dictContains fm k1) && !(dictContains acc k1)) = true
    · rw [if_pos hc]
      exact ih _ (dictContains_set acc k1 k v1 h)
    · rw [if_neg hc]
      exact ih _ h

theorem labelPass_contains_preserve (raw : Dict) (fm : List (String × String))
    (acc : Dict) (k : String) (h : dictContains acc k = true) :
    dictContains (labelPass raw fm acc) k = true := by
  induction fm generalizing acc with
  | nil => exact h
  | cons lp rest ih =>
    simp only [labelPass]
    by_cases hc : dictContains raw lp.1 = true
    · rw [if_pos hc]
      exact ih _ (dictContains_set acc lp.2 k _ h)
    · rw [if_neg hc]
      exact ih _ h

theorem labelPass_sets (raw : Dict) (fm : List (String × String)) (acc : Dict)
    (label pname : String) (hmem : (label, pname) ∈ fm)
    (hraw : dictContains raw label = true) :
    dictContains (labelPass raw fm acc) pname = true := by
  induction fm generalizing acc with
  | nil => cases hmem
  | cons lp rest ih =>
    simp only [labelPass]
    rcases List.mem_cons.mp hmem with h | h
    · rw [← h]
      rw [if_pos hraw]
      refine labelPass_contains_preserve raw rest _ pname ?_
      rw [dictContains, dictGet_set_self]
      rfl
    · by_cases hc : dictContains raw lp.1 = true
      · rw [if_pos hc]
        exact ih _ h
      · rw [if_neg hc]
        exact ih _ h

/-! ## Claim C4: pass-through of unmapped keys -/

/-- C4 (amended): for a raw-input dict (keys unique, as in any Python dict),
a raw key with no field-map entry is carried through with its value
unchanged provided the label-renaming pass did not already produce an output
entry under that same key; and every field-map label present in the raw
inputs puts its mapped parameter name into the output.  (Unconditional
pass-through fails: see the counterexample, where a raw key collides with a
mapped parameter name and keeps the translated value.) -/
theorem translate_inputs_passthrough (defn : CalculatorDefinition) (raw : Dict)
    (hnd : (raw.map Prod.fst).Nodup) :
    (∀ k : String, dictContains defn.field_map k = false →
      dictContains (labelPass raw defn.field_map []) k = false →
      dictGet (defn.translate_inputs raw) k = dictGet raw k)
    ∧ (∀ label pname : String, (label, pname) ∈ defn.field_map →
      dictContains raw label = true →
      dictContains (defn.translate_inputs raw) pname = true) := by
  constructor
  · intro k hfm hlp
    exact passthroughPass_get defn.field_map raw _ k hnd hfm hlp
  · intro label pname hmem hraw
    exact passthroughPass_contains defn.field_map raw _ pname
      (labelPass_sets raw defn.field_map [] label pname hmem hraw)

/-- C4 witness: the amended theorem applied to a field map `{"Age": "age"}`
and raw inputs `{"Age": 31, "extra": 7}`: the unmapped key "extra" passes
through unchanged and the label "Age" lands under "age". -/
theorem translate_inputs_passthrough_witness :
    dictGet (CalculatorDefinition.translate_inputs
        { id := "1", name := "N", slug := "n", module_path := "m",
          function_name := "f", field_map := [("Age", "age")] }
        [("Age", PyVal.num 31), ("extra", PyVal.num 7)]) "extra"
      = dictGet [("Age", PyVal.num 31), ("extra", PyVal.num 7)] "extra"
    ∧ dictContains (CalculatorDefinition.translate_inputs
        { id := "1", name := "N", slug := "n", module_path := "m",
          function_name := "f", field_map := [("Age", "age")] }
        [("Age", PyVal.num 31), ("extra", PyVal.num 7)]) "age" = true :=
  ⟨(translate_inputs_passthrough
      { id := "1", name := "N", slug := "n", module_path := "m",
        function_name := "f", field_map := [("Age", "age")] }
      [("Age", PyVal.num 31), ("extra", PyVal.num 7)] (by decide)).1
      "extra" (by decide) (by rfl),
   (translate_inputs_passthrough
      { id := "1", name := "N", slug := "n", module_path := "m",
        function_name := "f", field_map := [("Age", "age")] }
      [("Age", PyVal.num 31), ("extra", PyVal.num 7)] (by decide)).2
      "Age" "age" (by simp) (by rfl)⟩

/-- C4 counterexample: field map `{"A": "k"}`, raw inputs `{"A": 1, "k": 2}`.
The key "k" has no field-map entry, yet the output holds 1 (the value
translated from label "A"), not the raw value 2: the claimed unconditional
pass-through is false. -/
theorem translate_inputs_passthrough_counterexample :
    dictContains ([("A", "k")] : List (String × String)) "k" = false
    ∧ dictGet (CalculatorDefinition.translate_inputs
        { id := "9", name := "X", slug := "x", module_path := "m",
          function_name := "f", field_map := [("A", "k")] }
        [("A", PyVal.num 1), ("k", PyVal.num 2)]) "k" = some (PyVal.num 1)
    ∧ dictGet [("A", PyVal.num 1), ("k", PyVal.num 2)] "k" = some (PyVal.num 2)
    ∧ dictGet (CalculatorDefinition.translate_inputs
        { id := "9", name := "X", slug := "x", module_path := "m",
          function_name := "f", field_map := [("A", "k")] }
        [("A", PyVal.num 1), ("k", PyVal.num 2)]) "k"
      ≠ dictGet [("A", PyVal.num 1), ("k", PyVal.num 2)] "k" := by
  refine ⟨rfl, rfl, rfl, ?_⟩
  intro h
  rw [show dictGet (CalculatorDefinition.translate_inputs
        { id := "9", name := "X", slug := "x", module_path := "m",
          function_name := "f", field_map := [("A", "k")] }
        [("A", PyVal.num 1), ("k", PyVal.num 2)]) "k" = some (PyVal.num 1) from rfl,
      show dictGet [("A", PyVal.num 1), ("k", PyVal.num 2)] "k" = some (PyVal.num 2) from rfl]
    at h
  injection h with h1
  injection h1 with h2
  exact absurd h2 (by norm_num)

/-! ## Definition-builder lemmas -/

theorem processEntry_id (pathById : List (String × (String × String)))
    (counts : List (String × Nat)) (cid : String) (entry : NameMapEntry)
    (defn : CalculatorDefinition) (counts2 : List (String × Nat))
    (h : processEntry pathById counts cid entry = some (defn, counts2)) :
    defn.id = cid := by
  cases haf : acceptedFields pathById cid entry with
  | none =>
    rw [processEntry, haf] at h
    exact Option.noConfusion h
  | some t =>
    obtain ⟨mrp, fn, cn⟩ := t
    simp only [processEntry, haf, Option.some.injEq, Prod.mk.injEq] at h
    rw [← h.1]

theorem buildLoop_ids_sublist (pathById : List (String × (String × String)))
    (entries : List (String × NameMapEntry)) (counts : List (String × Nat)) :
    ((buildLoop pathById entries counts).map (fun c => c.id)).Sublist
      (entries.map Prod.fst) := by
  induction entries generalizing counts with
  | nil => simp [buildLoop]
  | cons kv rest ih =>
    obtain ⟨cid, entry⟩ := kv
    simp only [buildLoop, List.map_cons]
    cases hp : processEntry pathById counts cid entry with
    | none => exact (ih counts).cons cid
    | some pr =>
      obtain ⟨defn, counts2⟩ := pr
      simp only [List.map_cons]
      rw [processEntry_id pathById counts cid entry defn counts2 hp]
      exact (ih counts2).cons₂ cid

theorem buildLoop_not_mem_id (pathById : List (String × (String × String)))
    (entries : List (String × NameMapEntry)) (counts : List (String × Nat))
    (cid : String) (entry : NameMapEntry)
    (hmem : (cid, entry) ∈ entries)
    (hkeys : (entries.map Prod.fst).Nodup)
    (hskip : acceptedFields pathById cid entry = Option.none) :
    cid ∉ (buildLoop pathById entries counts).map (fun c => c.id) := by
  induction entries generalizing counts with
  | nil => cases hmem
  | cons kv rest ih =>
    obtain ⟨k1, e1⟩ := kv
    simp only [List.map_cons, List.nodup_cons] at hkeys
    simp only [buildLoop]
    rcases List.mem_cons.mp hmem with h | h
    · rw [Prod.mk.injEq] at h
      obtain ⟨h1, h2⟩ := h
      subst h1
      subst h2
      have hp : processEntry pathById counts cid entry = Option.none := by
        rw [processEntry, hskip]
      simp only [hp]
      intro hc
      exact hkeys.1 ((buildLoop_ids_sublist pathById rest counts).subset hc)
    · cases hp : processEntry pathById counts k1 e1 with
      | none =>
        simp only [hp]
        exact ih counts h hkeys.2
      | some pr =>
        obtain ⟨defn, counts2⟩ := pr
        simp only [hp, List.map_cons]
        intro hc
        rcases List.mem_cons.mp hc with hc1 | hc2
        · rw [processEntry_id pathById counts k1 e1 defn counts2 hp] at hc1
          apply hkeys.1
          rw [← hc1]
          exact List.mem_map_of_mem Prod.fst h
        · exact ih counts2 h hkeys.2 hc2

theorem acceptedFields_eq_none (pathById : List (String × (String × String)))
    (cid : String) (entry : NameMapEntry)
    (hskip : truthyStr (resolveModuleRelPath pathById cid entry) = false
      ∨ truthyStr (metaGet entry "explanation function") = false
      ∨ truthyStr (resolveCalculatorName pathById cid entry) = false) :
    acceptedFields pathById cid entry = Option.none := by
  rw [acceptedFields]
  cases h1 : resolveModuleRelPath pathById cid entry with
  | none => rfl
  | some mrp =>
    cases h2 : metaGet entry "explanation function" with
    | none => rfl
    | some fn =>
      cases h3 : resolveCalculatorName pathById cid entry with
      | none => rfl
      | some cn =>
        rw [h1, h2, h3] at hskip
        show (if (mrp.isEmpty || fn.isEmpty || cn.isEmpty) = true then Option.none
            else some (mrp, fn, cn)) = Option.none
        simp only [truthyStr] at hskip
        rcases hskip with h | h | h <;>
          · simp at h
            simp [h]

theorem buildLoop_slugs (pathById : List (String × (String × String)))
    (entries : List (String × NameMapEntry)) (counts : List (String × Nat)) :
    (buildLoop pathById entries counts).map (fun c => c.slug)
      = assignSlugs counts (keptBases pathById entries) := by
  induction entries generalizing counts with
  | nil => rfl
  | cons kv rest ih =>
    obtain ⟨cid, entry⟩ := kv
    simp only [buildLoop, keptBases]
    cases haf : acceptedFields pathById cid entry with
    | none =>
      have hp : processEntry pathById counts cid entry = Option.none := by
        rw [processEntry, haf]
      simp only [hp]
      exact ih counts
    | some t =>
      obtain ⟨mrp, fn, cn⟩ := t
      simp only [processEntry, haf, List.map_cons, assignSlugs]
      congr 1
      exact ih _

theorem assignSlugs_of_fresh (bases : List String) (counts : List (String × Nat))
    (hnd : bases.Nodup) (hfresh : ∀ b ∈ bases, dictGet counts b = Option.none) :
    assignSlugs counts bases = bases := by
  induction bases generalizing counts with
  | nil => rfl
  | cons b rest ih =>
    simp only [List.nodup_cons] at hnd
    simp only [assignSlugs, hfresh b (List.mem_cons_self b rest), Option.getD_none]
    rw [if_neg (by omega)]
    congr 1
    refine ih _ hnd.2 ?_
    intro b2 hb2
    rw [dictGet_set_ne counts b b2 _ (fun he => hnd.1 (by rw [he]; exact hb2))]
    exact hfresh b2 (List.mem_cons_of_mem b hb2)

/-! ## Claim C5: silent skip of incomplete entries -/

/-- C5: an identity whose resolved module path, explanation-function name or
calculator name is missing or empty yields no definition at all: its id never
appears in the registry's `list()` output (the loop `continue`s, and the
build is total — no error is raised for the skip). -/
theorem incomplete_entry_skipped (calc_path : List (String × CalcPathEntry))
    (name_map : List (String × NameMapEntry)) (cid : String) (entry : NameMapEntry)
    (hmem : (cid, entry) ∈ name_map)
    (hkeys : (name_map.map Prod.fst).Nodup)
    (hskip : truthyStr (resolveModuleRelPath (buildPathById calc_path) cid entry) = false
      ∨ truthyStr (metaGet entry "explanation function") = false
      ∨ truthyStr (resolveCalculatorName (buildPathById calc_path) cid entry) = false) :
    cid ∉ (get_registry calc_path name_map).list.map (fun c => c.id) :=
  buildLoop_not_mem_id (buildPathById calc_path) name_map [] cid entry hmem hkeys
    (acceptedFields_eq_none (buildPathById calc_path) cid entry hskip)

/-- C5 witness: entry "7" of the fixture lacks "Explanation Function" and is
absent from the built catalog. -/
theorem incomplete_entry_skipped_witness :
    "7" ∉ (get_registry [] nmIncomplete).list.map (fun c => c.id) :=
  incomplete_entry_skipped [] nmIncomplete "7"
    [("File Path", "m.py"), ("Calculator Name", "X")]
    (by decide) (by decide) (Or.inr (Or.inl (by decide)))

/-! ## Claim C1: uniqueness of ids and slugs -/

/-- C1 (amended): with pairwise-distinct identity keys (as parsed JSON
objects provide), the built `id`s are pairwise distinct for every input
metadata; the built `slug`s are pairwise distinct whenever the retained
entries' candidate base slugs are pairwise distinct.  Unconditional slug
uniqueness fails — see the counterexample, where a name's base slug equals an
already-suffixed slug. -/
theorem registry_id_slug_uniqueness (calc_path : List (String × CalcPathEntry))
    (name_map : List (String × NameMapEntry))
    (hkeys : (name_map.map Prod.fst).Nodup) :
    ((get_registry calc_path name_map).list.map (fun c => c.id)).Nodup
    ∧ ((keptBases (buildPathById calc_path) name_map).Nodup →
      ((get_registry calc_path name_map).list.map (fun c => c.slug)).Nodup) := by
  constructor
  · exact (buildLoop_ids_sublist (buildPathById calc_path) name_map []).nodup hkeys
  · intro hb
    have hs : (get_registry calc_path name_map).list.map (fun c => c.slug)
        = assignSlugs [] (keptBases (buildPathById calc_path) name_map) :=
      buildLoop_slugs (buildPathById calc_path) name_map []
    rw [hs, assignSlugs_of_fresh (keptBases (buildPathById calc_path) name_map) []
      hb (fun _ _ => rfl)]
    exact hb

/-- C1 witness: the uniqueness theorem applied to two complete entries with
distinct ids and distinct names. -/
theorem registry_id_slug_uniqueness_witness :
    ((get_registry [] nmUniq).list.map (fun c => c.id)).Nodup
    ∧ ((get_registry [] nmUniq).list.map (fun c => c.slug)).Nodup :=
  ⟨(registry_id_slug_uniqueness [] nmUniq (by decide)).1,
   (registry_id_slug_uniqueness [] nmUniq (by decide)).2 (by decide)⟩

/-- C1 counterexample: three complete entries with pairwise-distinct ids
whose names slugify to "a", "a", "a 2".  The second "a" is suffixed to
"a-2", which collides with the third entry's base slug: two definitions
share the slug "a-2", refuting slug uniqueness over all input metadata. -/
theorem registry_slug_collision_counterexample :
    (nmColl.map Prod.fst).Nodup
    ∧ (get_registry [] nmColl).list.map (fun c => c.slug) = ["a", "a-2", "a-2"]
    ∧ ¬ ((get_registry [] nmColl).list.map (fun c => c.slug)).Nodup := by
  refine ⟨by decide, by decide, by decide⟩

/-! ## Claim C6: slug derivation and collision suffixing -/

theorem countOcc_cons (b b2 : String) (l : List String) :
    countOcc (b :: l) b2 = (if b = b2 then 1 else 0) + countOcc l b2 := by
  simp only [countOcc, List.filter_cons]
  by_cases h : b = b2
  · simp [h]
    omega
  · simp [h]

theorem assignSlugs_getElem (counts : List (String × Nat)) (bases : List String)
    (i : Nat) :
    (assignSlugs counts bases)[i]? = (bases[i]?).map (fun b =>
      let n := (dictGet counts b).getD 0 + countOcc (bases.take (i + 1)) b
      if n > 1 then b ++ "-" ++ toString n else b) := by
  induction bases generalizing counts i with
  | nil => simp [assignSlugs]
  | cons b rest ih =>
    cases i with
    | zero =>
      simp [assignSlugs, List.take_succ_cons, countOcc_cons, countOcc]
    | succ j =>
      simp only [assignSlugs, List.getElem?_cons_succ]
      rw [ih]
      cases hr : rest[j]? with
      | none => simp
      | some b2 =>
        simp only [Option.map_some']
        have hn : (dictGet (dictSet counts b ((dictGet counts b).getD 0 + 1)) b2).getD 0
            + countOcc (rest.take (j + 1)) b2
            = (dictGet counts b2).getD 0 + countOcc ((b :: rest).take (j + 1 + 1)) b2 := by
          rw [List.take_succ_cons, countOcc_cons]
          by_cases hb : b = b2
          · subst hb
            rw [dictGet_set_self]
            simp only [Option.getD_some, eq_self_iff_true, if_true]
            omega
          · rw [dictGet_set_ne counts b b2 _ hb]
            simp [hb]
        simp only [hn]

/-- C6: `_slugify` lower-cases, hyphenates runs of non-alphanumerics, strips
boundary hyphens and falls back to "calculator" when empty; across one build
the Nth occurrence (N ≥ 2) of the same candidate slug, in iteration order,
receives the suffix `-N`; the two QTc fixture entries yield
"qtc-bazett-calculator" and "qtc-bazett-calculator-2". -/
theorem slug_collision_suffixing :
    _slugify "QTc Bazett Calculator" = "qtc-bazett-calculator"
    ∧ _slugify "qtc? BAZETT; calculator" = "qtc-bazett-calculator"
    ∧ _slugify " @@ " = "calculator"
    ∧ (∀ (bases : List String) (i : Nat),
        (assignSlugs [] bases)[i]? = (bases[i]?).map (fun b =>
          let n := countOcc (bases.take (i + 1)) b
          if n > 1 then b ++ "-" ++ toString n else b))
    ∧ (buildDefinitions [] nmQtc).map (fun c => c.slug)
        = ["qtc-bazett-calculator", "qtc-bazett-calculator-2"] := by
  refine ⟨by decide, by decide, by decide, ?_, by decide⟩
  intro bases i
  have h := assignSlugs_getElem [] bases i
  simpa [dictGet] using h

/-! ## Claim C3: normalized response assembly and post-processor merge -/

/-- C3: when the callable returns a mapping, `execute_calculator` returns the
base response (answer from "Answer", explanation from "Explanation", the full
raw result under "raw_response") updated with the post-processor output for
the definition's slug, the post-processor's values overriding same-named base
fields (lookup prefers the post-processor's binding whenever it has one). -/
theorem execute_normalized_response (table : PostTable) (call : Dict → PyVal)
    (calculator : CalculatorDefinition) (payload : Dict) (d : Dict)
    (hv : call (calculator.translate_inputs payload) = PyVal.dict d)
    (hnd : (((apply_post_processors table calculator
        (calculator.translate_inputs payload) d).getD []).map Prod.fst).Nodup) :
    execute_calculator table call calculator payload
      = Except.ok (dictUpdate (base_response calculator d)
          ((apply_post_processors table calculator
            (calculator.translate_inputs payload) d).getD []))
    ∧ dictGet (base_response calculator d) "answer" = some (pyDictGet d "Answer")
    ∧ dictGet (base_response calculator d) "explanation" = some (pyDictGet d "Explanation")
    ∧ dictGet (base_response calculator d) "raw_response" = some (PyVal.dict d)
    ∧ ∀ k : String,
        dictGet (dictUpdate (base_response calculator d)
          ((apply_post_processors table calculator
            (calculator.translate_inputs payload) d).getD [])) k
        = (dictGet ((apply_post_processors table calculator
              (calculator.translate_inputs payload) d).getD []) k).elim
            (dictGet (base_response calculator d) k) some := by
  refine ⟨?_, rfl, rfl, rfl, fun k => dictGet_update _ _ k hnd⟩
  simp only [execute_calculator]
  rw [hv]

/-- C3 witness: a two-key raw result through a definition with no registered
post-processor. -/
theorem execute_normalized_response_witness :
    execute_calculator POST_PROCESSORS
        (fun _ => PyVal.dict [("Answer", PyVal.num 3), ("Explanation", PyVal.str "ok")])
        { id := "1", name := "N", slug := "n", module_path := "m", function_name := "f" } []
      = Except.ok (dictUpdate
          (base_response
            { id := "1", name := "N", slug := "n", module_path := "m", function_name := "f" }
            [("Answer", PyVal.num 3), ("Explanation", PyVal.str "ok")])
          ((apply_post_processors POST_PROCESSORS
            { id := "1", name := "N", slug := "n", module_path := "m", function_name := "f" }
            (CalculatorDefinition.translate_inputs
              { id := "1", name := "N", slug := "n", module_path := "m", function_name := "f" } [])
            [("Answer", PyVal.num 3), ("Explanation", PyVal.str "ok")]).getD [])) :=
  (execute_normalized_response POST_PROCESSORS
    (fun _ => PyVal.dict [("Answer", PyVal.num 3), ("Explanation", PyVal.str "ok")])
    { id := "1", name := "N", slug := "n", module_path := "m", function_name := "f" } []
    [("Answer", PyVal.num 3), ("Explanation", PyVal.str "ok")] rfl (by decide)).1

/-! ## Claim C10: missing "Answer"/"Explanation" keys -/

/-- The PSI post-processor always emits exactly its five fixed keys. -/
theorem psi_output_keys (inputs raw_result : Dict) :
    (_psi_processor inputs raw_result).map Prod.fst
      = ["score", "raw_score", "risk_class", "recommendation", "is_class_i"] := rfl

/-- C10: when the callable returns a mapping, `execute_calculator` (with the
actual post-processor table) succeeds; if that mapping lacks the "Answer"
key the response's `answer` field is null, if it lacks the "Explanation" key
the response's `explanation` field is null, and in every case the full raw
result is preserved under `raw_response`. -/
theorem execute_missing_answer_keys (call : Dict → PyVal)
    (calculator : CalculatorDefinition) (payload : Dict) (d : Dict)
    (hv : call (calculator.translate_inputs payload) = PyVal.dict d) :
    ∃ r : Dict, execute_calculator POST_PROCESSORS call calculator payload = Except.ok r
      ∧ (dictGet d "Answer" = Option.none → dictGet r "answer" = some PyVal.none)
      ∧ (dictGet d "Explanation" = Option.none →
          dictGet r "explanation" = some PyVal.none)
      ∧ dictGet r "raw_response" = some (PyVal.dict d) := by
  have hextra : ∀ key : String, key ∈ (["answer", "explanation", "raw_response"] : List String) →
      dictGet ((apply_post_processors POST_PROCESSORS calculator
        (calculator.translate_inputs payload) d).getD []) key = Option.none := by
    intro key hkey
    by_cases hs : calculator.slug = "psi-score-pneumonia-severity-index-for-cap"
    · have : apply_post_processors POST_PROCESSORS calculator
          (calculator.translate_inputs payload) d
          = some (_psi_processor (calculator.translate_inputs payload) d) := by
        simp [apply_post_processors, POST_PROCESSORS, hs]
      rw [this, Option.getD_some]
      refine dictGet_eq_none_of_not_mem _ key ?_
      rw [psi_output_keys]
      simp only [List.mem_cons, List.not_mem_nil, or_false] at hkey
      rcases hkey with h | h | h
      all_goals (subst h; decide)
    · have : apply_post_processors POST_PROCESSORS calculator
          (calculator.translate_inputs payload) d = Option.none := by
        simp [apply_post_processors, POST_PROCESSORS, hs]
      rw [this]
      rfl
  have hnd : (((apply_post_processors POST_PROCESSORS calculator
      (calculator.translate_inputs payload) d).getD []).map Prod.fst).Nodup := by
    by_cases hs : calculator.slug = "psi-score-pneumonia-severity-index-for-cap"
    · have : apply_post_processors POST_PROCESSORS calculator
          (calculator.translate_inputs payload) d
          = some (_psi_processor (calculator.translate_inputs payload) d) := by
        simp [apply_post_processors, POST_PROCESSORS, hs]
      rw [this, Option.getD_some, psi_output_keys]
      decide
    · have : apply_post_processors POST_PROCESSORS calculator
          (calculator.translate_inputs payload) d = Option.none := by
        simp [apply_post_processors, POST_PROCESSORS, hs]
      rw [this]
      exact List.nodup_nil
  refine ⟨dictUpdate (base_response calculator d)
      ((apply_post_processors POST_PROCESSORS calculator
        (calculator.translate_inputs payload) d).getD []), ?_, ?_, ?_, ?_⟩
  · simp only [execute_calculator]
    rw [hv]
  · intro ha
    rw [dictGet_update _ _ _ hnd, hextra "answer" (by decide)]
    show dictGet (base_response calculator d) "answer" = some PyVal.none
    show some (pyDictGet d "Answer") = some PyVal.none
    rw [pyDictGet, ha]
    rfl
  · intro he
    rw [dictGet_update _ _ _ hnd, hextra "explanation" (by decide)]
    show some (pyDictGet d "Explanation") = some PyVal.none
    rw [pyDictGet, he]
    rfl
  · rw [dictGet_update _ _ _ hnd, hextra "raw_response" (by decide)]
    rfl

/-- C10 witness: a raw result that lacks only the "Answer" key ("Explanation"
is present) still succeeds, with a null `answer` field and the raw result
preserved. -/
theorem execute_missing_answer_keys_witness :
    ∃ r : Dict, execute_calculator POST_PROCESSORS
        (fun _ => PyVal.dict [("Explanation", PyVal.str "why")])
        { id := "1", name := "N", slug := "n", module_path := "m", function_name := "f" } []
        = Except.ok r
      ∧ dictGet r "answer" = some PyVal.none
      ∧ dictGet r "raw_response" = some (PyVal.dict [("Explanation", PyVal.str "why")]) := by
  obtain ⟨r, hok, hans, hexp, hraw⟩ :=
    execute_missing_answer_keys (fun _ => PyVal.dict [("Explanation", PyVal.str "why")])
      { id := "1", name := "N", slug := "n", module_path := "m", function_name := "f" } []
      [("Explanation", PyVal.str "why")] rfl
  exact ⟨r, hok, hans rfl, hraw⟩

/-! ## Claim C2: PSI risk tiers -/

/-- C2 (amended): with `is_class_i` false and an extracted integer score, the
PSI tier map has exactly the four threshold bands ≤70, ≤90, ≤130, >130 with
their fixed recommendation strings; in particular a raw score of 95 falls in
the ≤130 band and yields "Risk Class IV" (not "Risk Class III" as the
original claim said), and a raw score of 140 yields "Risk Class V". -/
theorem psi_tier_thresholds :
    (∀ s : Int, s ≤ 70 →
      _derive_psi_risk_class (some s) false
        = ("Risk Class II", "Low risk. Outpatient care appropriate."))
    ∧ (∀ s : Int, 70 < s → s ≤ 90 →
      _derive_psi_risk_class (some s) false
        = ("Risk Class III", "Low risk. Consider outpatient management or brief observation."))
    ∧ (∀ s : Int, 90 < s → s ≤ 130 →
      _derive_psi_risk_class (some s) false
        = ("Risk Class IV", "Moderate risk. Recommend inpatient admission."))
    ∧ (∀ s : Int, 130 < s →
      _derive_psi_risk_class (some s) false
        = ("Risk Class V", "High risk. Recommend inpatient admission (consider ICU)."))
    ∧ _derive_psi_risk_class (some 95) false
        = ("Risk Class IV", "Moderate risk. Recommend inpatient admission.")
    ∧ _derive_psi_risk_class (some 140) false
        = ("Risk Class V", "High risk. Recommend inpatient admission (consider ICU).") := by
  refine ⟨fun s h => ?_, fun s h1 h2 => ?_, fun s h1 h2 => ?_, fun s h => ?_, ?_, ?_⟩
  · simp only [_derive_psi_risk_class, Bool.false_eq_true, if_false]
    rw [if_pos h]
  · simp only [_derive_psi_risk_class, Bool.false_eq_true, if_false]
    rw [if_neg (by omega), if_pos h2]
  · simp only [_derive_psi_risk_class, Bool.false_eq_true, if_false]
    rw [if_neg (by omega), if_neg (by omega), if_pos h2]
  · simp only [_derive_psi_risk_class, Bool.false_eq_true, if_false]
    rw [if_neg (by omega), if_neg (by omega), if_neg (by omega)]
  · rfl
  · rfl

/-- C2 witness: the tier theorem applied at scores 50, 80, 95 and 140. -/
theorem psi_tier_thresholds_witness :
    _derive_psi_risk_class (some 50) false
      = ("Risk Class II", "Low risk. Outpatient care appropriate.")
    ∧ _derive_psi_risk_class (some 80) false
      = ("Risk Class III", "Low risk. Consider outpatient management or brief observation.")
    ∧ _derive_psi_risk_class (some 95) false
      = ("Risk Class IV", "Moderate risk. Recommend inpatient admission.")
    ∧ _derive_psi_risk_class (some 140) false
      = ("Risk Class V", "High risk. Recommend inpatient admission (consider ICU).") :=
  ⟨psi_tier_thresholds.1 50 (by decide),
   psi_tier_thresholds.2.1 80 (by decide) (by decide),
   psi_tier_thresholds.2.2.1 95 (by decide) (by decide),
   psi_tier_thresholds.2.2.2.1 140 (by decide)⟩

/-- C2 counterexample: the claim says a raw score of 95 yields "Risk Class
III"; the code puts 95 in the ≤130 band, "Risk Class IV". -/
theorem psi_tier_score95_counterexample :
    (_derive_psi_risk_class (some 95) false).1 = "Risk Class IV"
    ∧ (_derive_psi_risk_class (some 95) false).1 ≠ "Risk Class III" := by
  constructor
  · rfl
  · intro h
    exact absurd h (by decide)

/-! ## Claim C9: temperature normalization -/

/-- C9: temperature normalization passes a bare numeric value through, passes
a value whose lower-cased unit token contains "c" through, converts a value
whose unit token contains "f" (and no "c") via (v − 32) × 5/9; (97, "F")
normalizes to 325/9 ≈ 36.11 and (37, "C") to 37. -/
theorem temperature_normalization :
    (∀ v : ℚ, _convert_temperature_to_celsius (PyVal.num v) = some v)
    ∧ (∀ (v : ℚ) (u : String), strContainsChar (strLower u) 'c' = true →
        _convert_temperature_to_celsius (PyVal.list [PyVal.num v, PyVal.str u]) = some v)
    ∧ (∀ (v : ℚ) (u : String), strContainsChar (strLower u) 'c' = false →
        strContainsChar (strLower u) 'f' = true →
        _convert_temperature_to_celsius (PyVal.list [PyVal.num v, PyVal.str u])
          = some ((v - 32) * (5 / 9)))
    ∧ _convert_temperature_to_celsius (PyVal.list [PyVal.num 97, PyVal.str "F"])
        = some (325 / 9)
    ∧ abs ((325 : ℚ) / 9 - 3611 / 100) < 1 / 100
    ∧ _convert_temperature_to_celsius (PyVal.list [PyVal.num 37, PyVal.str "C"])
        = some 37 := by
  refine ⟨fun v => ?_, fun v u h => ?_, fun v u h1 h2 => ?_, ?_, ?_, ?_⟩
  · simp [_convert_temperature_to_celsius, _extract_value, pyFloat, _extract_unit,
      strContainsChar]
  · simp [_convert_temperature_to_celsius, _extract_value, pyFloat, _extract_unit,
      pyStr, h]
  · simp [_convert_temperature_to_celsius, _extract_value, pyFloat, _extract_unit,
      pyStr, h1, h2]
  · simp [_convert_temperature_to_celsius, _extract_value, pyFloat, _extract_unit,
      pyStr, strContainsChar, strLower]
    norm_num
  · rw [abs_lt]
    constructor <;> norm_num
  · simp [_convert_temperature_to_celsius, _extract_value, pyFloat, _extract_unit,
      pyStr, strContainsChar, strLower]

/-- C9 witness: the normalization theorem applied at units "cel" and "f". -/
theorem temperature_normalization_witness :
    _convert_temperature_to_celsius (PyVal.list [PyVal.num 37, PyVal.str "cel"]) = some 37
    ∧ _convert_temperature_to_celsius (PyVal.list [PyVal.num 97, PyVal.str "f"])
        = some ((97 - 32) * (5 / 9)) :=
  ⟨temperature_normalization.2.1 37 "cel" (by decide),
   temperature_normalization.2.2.1 97 "f" (by decide) (by decide)⟩

/-! ## Claim C7: non-mapping result -/

/-- C7: when the resolved callable returns anything that is not a key/value
mapping, `execute_calculator` fails with the contract-violation error whose
message names the calculator's slug, and produces no normalized response. -/
theorem execute_non_mapping_error (table : PostTable) (call : Dict → PyVal)
    (calculator : CalculatorDefinition) (payload : Dict) (v : PyVal)
    (hv : call (calculator.translate_inputs payload) = v)
    (hnotdict : ∀ d : Dict, v ≠ PyVal.dict d) :
    execute_calculator table call calculator payload
      = Except.error ("Calculator '" ++ calculator.slug ++ "' returned an unexpected result. "
          ++ "Expected a dictionary containing 'Answer' and 'Explanation'.")
    ∧ ∀ r : Dict, execute_calculator table call calculator payload ≠ Except.ok r := by
  have herr : execute_calculator table call calculator payload
      = Except.error ("Calculator '" ++ calculator.slug ++ "' returned an unexpected result. "
          ++ "Expected a dictionary containing 'Answer' and 'Explanation'.") := by
    simp only [execute_calculator]
    rw [hv]
    cases v with
    | dict d => exact absurd rfl (hnotdict d)
    | none => rfl
    | bool b => rfl
    | int n => rfl
    | num q => rfl
    | str s => rfl
    | list l => rfl
  refine ⟨herr, fun r hr => ?_⟩
  rw [herr] at hr
  exact Except.noConfusion hr

/-- C7 witness: a callable returning a list triggers the contract-violation
error for the calculator's slug. -/
theorem execute_non_mapping_error_witness :
    execute_calculator POST_PROCESSORS (fun _ => PyVal.list [])
        { id := "1", name := "X", slug := "x-calc", module_path := "m", function_name := "f" } []
      = Except.error ("Calculator 'x-calc' returned an unexpected result. "
          ++ "Expected a dictionary containing 'Answer' and 'Explanation'.") :=
  (execute_non_mapping_error POST_PROCESSORS (fun _ => PyVal.list [])
    { id := "1", name := "X", slug := "x-calc", module_path := "m", function_name := "f" } []
    (PyVal.list []) rfl (fun _ h => PyVal.noConfusion h)).1


theorem extract_value_num (q : ℚ) : _extract_value (PyVal.num q) = some q := rfl
theorem as_bool_bool (b : Bool) : _as_bool (PyVal.bool b) = b := rfl
theorem pyTruthy_bool (b : Bool) : pyTruthy (PyVal.bool b) = b := rfl
theorem age_conversion_num (q : ℚ) : age_conversion (PyVal.num q) = some q := rfl
theorem convert_temp_unit_C (t : ℚ) :
    _convert_temperature_to_celsius (PyVal.list [PyVal.num t, PyVal.str "C"]) = some t := rfl

theorem psi_bool_eq (a rr sbp hr t : ℚ) (nursing neo liver chf cere renal ams : Bool) :
    (decide (a ≤ 50) && !nursing && (!neo && (!liver && (!chf && (!cere && !renal)))) &&
      (!ams && (!decide (30 ≤ rr) && (!decide (sbp < 90) &&
        (!decide (t < 35) && !decide (40 ≤ t) && !decide (125 ≤ hr))))))
    = (decide (a ≤ 50) && (!nursing && (!neo && (!liver && (!chf && (!cere &&
        (!renal && (!ams && (decide (rr < 30) && (decide (90 ≤ sbp) &&
          (decide (35 ≤ t) && (decide (t < 40) && decide (hr < 125))))))))))))) := by
  rw [Bool.eq_iff_iff]
  simp only [Bool.and_eq_true, Bool.not_eq_true', decide_eq_true_eq,
    decide_eq_false_iff_not, not_le, not_lt]
  tauto

theorem psi_fast_path :
    (∀ (a rr sbp hr t : ℚ) (nursing neo liver chf cere renal ams : Bool) (raw : Dict),
      _psi_processor
        [("age", PyVal.num a), ("nursing_home_resident", PyVal.bool nursing),
         ("neoplastic_disease", PyVal.bool neo), ("liver_disease", PyVal.bool liver),
         ("chf", PyVal.bool chf), ("cerebrovascular_disease", PyVal.bool cere),
         ("renal_disease", PyVal.bool renal), ("respiratory_rate", PyVal.num rr),
         ("sys_bp", PyVal.num sbp), ("heart_rate", PyVal.num hr),
         ("temperature", PyVal.list [PyVal.num t, PyVal.str "C"]),
         ("altered_mental_status", PyVal.bool ams)] raw
      = (let sv := (pyFloat (pyDictGet raw "Answer")).map pyRound
         let ici := decide (a ≤ 50 ∧ nursing = false ∧ neo = false ∧ liver = false
           ∧ chf = false ∧ cere = false ∧ renal = false ∧ ams = false ∧ rr < 30
           ∧ 90 ≤ sbp ∧ 35 ≤ t ∧ t < 40 ∧ hr < 125)
         [("score", if ici then PyVal.none else optIntToPy sv),
          ("raw_score", optIntToPy sv),
          ("risk_class", PyVal.str (_derive_psi_risk_class sv ici).1),
          ("recommendation", PyVal.str (_derive_psi_risk_class sv ici).2),
          ("is_class_i", PyVal.bool ici)]))
    ∧ dictGet (_psi_processor psiInputs45 [("Answer", PyVal.num 45)]) "is_class_i"
        = some (PyVal.bool true)
    ∧ dictGet (_psi_processor psiInputs45 [("Answer", PyVal.num 45)]) "score"
        = some PyVal.none
    ∧ dictGet (_psi_processor psiInputs45 [("Answer", PyVal.num 45)]) "raw_score"
        = some (PyVal.int 45)
    ∧ dictGet (_psi_processor psiInputs45 [("Answer", PyVal.num 45)]) "risk_class"
        = some (PyVal.str "Risk Class I") := by
  have hgen : ∀ (a rr sbp hr t : ℚ) (nursing neo liver chf cere renal ams : Bool) (raw : Dict),
      _psi_processor
        [("age", PyVal.num a), ("nursing_home_resident", PyVal.bool nursing),
         ("neoplastic_disease", PyVal.bool neo), ("liver_disease", PyVal.bool liver),
         ("chf", PyVal.bool chf), ("cerebrovascular_disease", PyVal.bool cere),
         ("renal_disease", PyVal.bool renal), ("respiratory_rate", PyVal.num rr),
         ("sys_bp", PyVal.num sbp), ("heart_rate", PyVal.num hr),
         ("temperature", PyVal.list [PyVal.num t, PyVal.str "C"]),
         ("altered_mental_status", PyVal.bool ams)] raw
      = (let sv := (pyFloat (pyDictGet raw "Answer")).map pyRound
         let ici := decide (a ≤ 50 ∧ nursing = false ∧ neo = false ∧ liver = false
           ∧ chf = false ∧ cere = false ∧ renal = false ∧ ams = false ∧ rr < 30
           ∧ 90 ≤ sbp ∧ 35 ≤ t ∧ t < 40 ∧ hr < 125)
         [("score", if ici then PyVal.none else optIntToPy sv),
          ("raw_score", optIntToPy sv),
          ("risk_class", PyVal.str (_derive_psi_risk_class sv ici).1),
          ("recommendation", PyVal.str (_derive_psi_risk_class sv ici).2),
          ("is_class_i", PyVal.bool ici)]) := by
    intro a rr sbp hr t nursing neo liver chf cere renal ams raw
    simp [_psi_processor, pyDictGet, dictGet, dictContains, extract_value_num,
      as_bool_bool, pyTruthy_bool, age_conversion_num, convert_temp_unit_C,
      optIntToPy, and_assoc]
    rw [psi_bool_eq]
    exact ⟨rfl, rfl, rfl⟩
  have hround : pyRound 45 = 45 := by
    have hf : ⌊(45 : ℚ)⌋ = 45 := by norm_num
    unfold pyRound
    rw [hf]
    norm_num
  have hout : _psi_processor psiInputs45 [("Answer", PyVal.num 45)]
      = [("score", PyVal.none), ("raw_score", PyVal.int 45),
         ("risk_class", PyVal.str "Risk Class I"),
         ("recommendation", PyVal.str "Very low risk. Outpatient care appropriate."),
         ("is_class_i", PyVal.bool true)] := by
    have h := hgen 45 18 120 80 37 false false false false false false false
      [("Answer", PyVal.num 45)]
    rw [show psiInputs45 = [("age", PyVal.num 45), ("nursing_home_resident", PyVal.bool false),
       ("neoplastic_disease", PyVal.bool false), ("liver_disease", PyVal.bool false),
       ("chf", PyVal.bool false), ("cerebrovascular_disease", PyVal.bool false),
       ("renal_disease", PyVal.bool false), ("respiratory_rate", PyVal.num 18),
       ("sys_bp", PyVal.num 120), ("heart_rate", PyVal.num 80),
       ("temperature", PyVal.list [PyVal.num 37, PyVal.str "C"]),
       ("altered_mental_status", PyVal.bool false)] from rfl, h]
    norm_num [pyFloat, pyDictGet, dictGet, hround, optIntToPy, _derive_psi_risk_class]
  exact ⟨hgen, by rw [hout]; rfl, by rw [hout]; rfl, by rw [hout]; rfl, by rw [hout]; rfl⟩
end MedCalc
